import Mathlib

/-!
Verification of the credential-lifecycle core of the dezztech backend.

The Python source is shallowly embedded: ORM entities become structures,
timestamps become rationals (seconds), raised exceptions become an error
inductive, and the database session becomes explicit state passing.
External collaborators (bcrypt password hashing, SHA-256, the JWT library,
the random generators) are passed in as explicit function parameters or
modelled abstractly, as the spec treats them as injected collaborators.
-/

/-- The domain exceptions raised by the auth and user services
(src/auth/exceptions.py, src/users/exceptions.py). -/
inductive AuthError where
  | OTPAttemptsExceeded
  | OTPExpired
  | OTPInvalid
  | OTPResendTooSoon (cooldown_seconds_remaining : ℤ)
  | InvalidCredentials
  | EmailNotVerified
  | UserInactive
  | EmailAlreadyVerified
  | UserNotFound
  | PasswordReuseNotAllowed
  | LastSuperAdmin
  | WeakPassword
  deriving DecidableEq, Repr

/-- Python `int()` applied to a rational: truncation toward zero. -/
def pyInt (q : ℚ) : ℤ := if 0 ≤ q then ⌊q⌋ else ⌈q⌉

/-- Row of `email_verification_codes`
(src/auth/models/email_verification_code.py). Timestamps are rationals in
seconds; `created_at` is not modelled (no claim depends on it). -/
structure EmailVerificationCode where
  user_id : ℕ
  code : String
  expires_at : ℚ
  is_used : Bool
  attempts_count : ℕ
  last_sent_at : ℚ
  deriving DecidableEq, Repr

namespace EmailVerificationCode

def MAX_ATTEMPTS : ℕ := 5

def RESEND_COOLDOWN_SECONDS : ℚ := 60

def OTP_VALIDITY_MINUTES : ℚ := 10

/-- `is_expired`: true if current time is greater than `expires_at`.
The Python method reads the clock itself; here `now` is explicit. -/
def is_expired (vc : EmailVerificationCode) (now : ℚ) : Bool :=
  decide (vc.expires_at < now)

/-- `can_resend`: true if 60 seconds have passed since `last_sent_at`. -/
def can_resend (vc : EmailVerificationCode) (now : ℚ) : Bool :=
  decide (RESEND_COOLDOWN_SECONDS ≤ now - vc.last_sent_at)

/-- `increment_attempts`: increment `attempts_count` by 1. -/
def increment_attempts (vc : EmailVerificationCode) : EmailVerificationCode :=
  { vc with attempts_count := vc.attempts_count + 1 }

/-- `has_exceeded_attempts`: true if `attempts_count >= 5`. -/
def has_exceeded_attempts (vc : EmailVerificationCode) : Bool :=
  decide (MAX_ATTEMPTS ≤ vc.attempts_count)

/-- `mark_as_used`: set `is_used` to true. -/
def mark_as_used (vc : EmailVerificationCode) : EmailVerificationCode :=
  { vc with is_used := true }

/-- `verify_or_raise`: returns the updated row together with the raised
exception, if any (raising mutates no further state in the source). -/
def verify_or_raise (vc : EmailVerificationCode) (input_code : String) (now : ℚ) :
    EmailVerificationCode × Option AuthError :=
  if vc.has_exceeded_attempts then
    (vc, some .OTPAttemptsExceeded)
  else if vc.is_expired now then
    (vc, some .OTPExpired)
  else if vc.code ≠ input_code then
    (vc.increment_attempts, some .OTPInvalid)
  else
    (vc.mark_as_used, none)

end EmailVerificationCode

/-- Iterate `verify_or_raise` over a sequence of (input code, timestamp)
calls, threading the row state and discarding the raised errors. -/
def verifyCalls : EmailVerificationCode → List (String × ℚ) → EmailVerificationCode
  | vc, [] => vc
  | vc, c :: rest => verifyCalls (vc.verify_or_raise c.1 c.2).1 rest

lemma verifyCalls_wrong_live (calls : List (String × ℚ)) :
    ∀ vc : EmailVerificationCode,
    (∀ c ∈ calls, c.1 ≠ vc.code) →
    (∀ c ∈ calls, ¬ vc.expires_at < c.2) →
    vc.attempts_count + calls.length ≤ 5 →
    verifyCalls vc calls = { vc with attempts_count := vc.attempts_count + calls.length } := by
  induction calls with
  | nil => intro vc _ _ _; simp [verifyCalls]
  | cons c rest ih =>
    intro vc hwrong hlive hcap
    have hc : c.1 ≠ vc.code := hwrong c (by simp)
    have hl : ¬ vc.expires_at < c.2 := hlive c (by simp)
    have hlen : (c :: rest).length = rest.length + 1 := by simp
    rw [hlen] at hcap
    have h1 : vc.has_exceeded_attempts = false := by
      simp only [EmailVerificationCode.has_exceeded_attempts,
        EmailVerificationCode.MAX_ATTEMPTS, decide_eq_false_iff_not]
      omega
    have h2 : vc.is_expired c.2 = false := by
      simp only [EmailVerificationCode.is_expired, decide_eq_false_iff_not]
      exact hl
    have hstep : (vc.verify_or_raise c.1 c.2).1 = vc.increment_attempts := by
      simp [EmailVerificationCode.verify_or_raise, h1, h2, Ne.symm hc]
    have hrec := ih vc.increment_attempts
      (fun d hd => hwrong d (List.mem_cons_of_mem c hd))
      (fun d hd => hlive d (List.mem_cons_of_mem c hd))
      (by show vc.attempts_count + 1 + rest.length ≤ 5; omega)
    rw [verifyCalls, hstep, hrec]
    show ({ vc with attempts_count := vc.attempts_count + 1 + rest.length } :
        EmailVerificationCode) = _
    rw [hlen]
    congr 1
    omega

/-- C1: `verify_or_raise` checks in order: exhausted attempts (≥ 5) raise
`OTPAttemptsExceeded` with no state change; then strict expiry (`now >
expires_at`) raises `OTPExpired` with no state change; then a code mismatch
increments `attempts_count` by exactly 1 and raises `OTPInvalid` (the only
attempt-consuming path); otherwise `is_used` is set and the call succeeds. -/
theorem verify_or_raise_check_order (vc : EmailVerificationCode)
    (input : String) (now : ℚ) :
    (5 ≤ vc.attempts_count →
      vc.verify_or_raise input now = (vc, some .OTPAttemptsExceeded)) ∧
    (vc.attempts_count < 5 → vc.expires_at < now →
      vc.verify_or_raise input now = (vc, some .OTPExpired)) ∧
    (vc.attempts_count < 5 → ¬ vc.expires_at < now → vc.code ≠ input →
      vc.verify_or_raise input now =
        ({ vc with attempts_count := vc.attempts_count + 1 }, some .OTPInvalid)) ∧
    (vc.attempts_count < 5 → ¬ vc.expires_at < now → vc.code = input →
      vc.verify_or_raise input now = ({ vc with is_used := true }, none)) := by
  refine ⟨?_, ?_, ?_, ?_⟩
  · intro h
    simp [EmailVerificationCode.verify_or_raise,
      EmailVerificationCode.has_exceeded_attempts,
      EmailVerificationCode.MAX_ATTEMPTS, h]
  · intro h hex
    simp [EmailVerificationCode.verify_or_raise,
      EmailVerificationCode.has_exceeded_attempts,
      EmailVerificationCode.is_expired, EmailVerificationCode.MAX_ATTEMPTS,
      Nat.not_le.mpr h, hex]
  · intro h hex hne
    simp [EmailVerificationCode.verify_or_raise,
      EmailVerificationCode.has_exceeded_attempts,
      EmailVerificationCode.is_expired, EmailVerificationCode.MAX_ATTEMPTS,
      EmailVerificationCode.increment_attempts,
      Nat.not_le.mpr h, hex, hne]
  · intro h hex heq
    simp [EmailVerificationCode.verify_or_raise,
      EmailVerificationCode.has_exceeded_attempts,
      EmailVerificationCode.is_expired, EmailVerificationCode.MAX_ATTEMPTS,
      EmailVerificationCode.mark_as_used,
      Nat.not_le.mpr h, hex, heq]

/-- Witness for C1: on a live code with 0 attempts, a wrong input consumes
exactly one attempt and raises `OTPInvalid`. -/
theorem verify_or_raise_check_order_witness :
    (⟨1, "1234", 600, false, 0, 0⟩ :
        EmailVerificationCode).verify_or_raise "9999" 10 =
      (⟨1, "1234", 600, false, 1, 0⟩, some .OTPInvalid) :=
  (verify_or_raise_check_order ⟨1, "1234", 600, false, 0, 0⟩ "9999" 10).2.2.1
    (by decide) (by decide) (by decide)

/-- C2: after five wrong-code calls on a live code starting from
`attempts_count = 0`, every subsequent call — with any input, right or
wrong, and at any time, expired or not — raises `OTPAttemptsExceeded` and
leaves the state unchanged (so it can never succeed). -/
theorem attempts_exhaustion_is_permanent (vc : EmailVerificationCode)
    (calls : List (String × ℚ)) (h0 : vc.attempts_count = 0)
    (h5 : calls.length = 5)
    (hwrong : ∀ c ∈ calls, c.1 ≠ vc.code)
    (hlive : ∀ c ∈ calls, ¬ vc.expires_at < c.2) :
    ∀ input now, (verifyCalls vc calls).verify_or_raise input now =
      (verifyCalls vc calls, some .OTPAttemptsExceeded) := by
  intro input now
  have hres : verifyCalls vc calls = { vc with attempts_count := 5 } := by
    have := verifyCalls_wrong_live calls vc hwrong hlive (by omega)
    rw [this, h0, h5]
  rw [hres]
  simp [EmailVerificationCode.verify_or_raise,
    EmailVerificationCode.has_exceeded_attempts,
    EmailVerificationCode.MAX_ATTEMPTS]

/-- Witness for C2: five wrong guesses during validity, then even the right
code, long after expiry, is rejected with `OTPAttemptsExceeded`. -/
theorem attempts_exhaustion_is_permanent_witness :
    (verifyCalls ⟨1, "1234", 600, false, 0, 0⟩
        [("0", 1), ("0", 2), ("0", 3), ("0", 4), ("0", 5)]).verify_or_raise
        "1234" 100000 =
      (verifyCalls ⟨1, "1234", 600, false, 0, 0⟩
        [("0", 1), ("0", 2), ("0", 3), ("0", 4), ("0", 5)],
       some .OTPAttemptsExceeded) :=
  attempts_exhaustion_is_permanent ⟨1, "1234", 600, false, 0, 0⟩
    [("0", 1), ("0", 2), ("0", 3), ("0", 4), ("0", 5)]
    (by decide) (by decide) (by decide) (by decide) "1234" 100000

/-! ## Password policy (src/core/security/password_policy.py)

`PASSWORD_REGEX = ^(?=.*[a-z])(?=.*[A-Z])(?=.*\d)(?=.*[\W_]).{8,64}$`,
applied with `re.match`. The regex is embedded over lists of characters
with Python `re` semantics: `.` matches any character except a newline,
`$` matches at the end of the string or just before a trailing newline,
and each lookahead `(?=.*[class])` holds when a class character occurs
with no newline strictly before it. The character classes are the ASCII
readings of `[a-z]`, `[A-Z]`, `\d` and `\W` (Python's Unicode classes
coincide with these on ASCII input). -/

def isLowerAZ (c : Char) : Bool := 'a' ≤ c && c ≤ 'z'

def isUpperAZ (c : Char) : Bool := 'A' ≤ c && c ≤ 'Z'

def isDigit09 (c : Char) : Bool := '0' ≤ c && c ≤ '9'

/-- ASCII reading of Python `\w` (letters, digits, underscore). -/
def isWordChar (c : Char) : Bool :=
  isLowerAZ c || isUpperAZ c || isDigit09 c || c == '_'

/-- The character class `[\W_]` of the compiled pattern: any non-word
character, or an underscore. -/
def isSymW (c : Char) : Bool := !isWordChar c || c == '_'

/-- Characters of the string reachable by `.*` from the start: everything
up to and including the first newline. -/
def laCandidates : List Char → List Char
  | [] => []
  | c :: rest => if c = '\n' then [c] else c :: laCandidates rest

/-- One lookahead `(?=.*[class])` of the pattern. -/
def hasLA (p : Char → Bool) (s : List Char) : Bool := (laCandidates s).any p

def lenOK (n : ℕ) : Bool := 8 ≤ n && n ≤ 64

/-- The consuming part `.{8,64}$` of the pattern anchored at the start:
either the whole string is newline-free with length 8–64, or it is a
newline-free string of length 8–64 followed by one trailing newline. -/
def dotTail (s : List Char) : Bool :=
  if s.all (fun c => c ≠ '\n') then lenOK s.length
  else (s.getLast? == some '\n') && s.dropLast.all (fun c => c ≠ '\n') &&
    lenOK (s.length - 1)

/-- `PASSWORD_REGEX.match(password)` as a Boolean. -/
def PASSWORD_REGEX_match (s : List Char) : Bool :=
  hasLA isLowerAZ s && hasLA isUpperAZ s && hasLA isDigit09 s &&
    hasLA isSymW s && dotTail s

/-- `validate_password_strength`: raises (`ValueError` in the core policy,
wrapped as `WeakPasswordException` in src/auth/utils.py) iff the pattern
does not match. -/
def validate_password_strength (password : List Char) : Option AuthError :=
  if PASSWORD_REGEX_match password then none else some .WeakPassword

/-- The claim's acceptance criterion, following the spec's words: length
8–64 and at least one lowercase, one uppercase, one digit, and one symbol,
where a symbol is any non-alphanumeric, non-underscore character. -/
def spec_symbol (c : Char) : Bool :=
  !(isLowerAZ c || isUpperAZ c || isDigit09 c) && !(c == '_')

def spec_password_ok (p : List Char) : Bool :=
  lenOK p.length && p.any isLowerAZ && p.any isUpperAZ && p.any isDigit09 &&
    p.any spec_symbol

/-- C4 counterexample: "Abcdef1_" is accepted by the code (underscore
matches `[\W_]`) but has no symbol in the claim's sense (non-alphanumeric
and non-underscore), so the claimed equivalence fails. -/
theorem validate_password_strength_claim_false :
    ¬ ((validate_password_strength "Abcdef1_".toList = none) ↔
        spec_password_ok "Abcdef1_".toList = true) := by
  decide

lemma laCandidates_of_no_newline (s : List Char) (h : ∀ c ∈ s, c ≠ '\n') :
    laCandidates s = s := by
  induction s with
  | nil => rfl
  | cons c rest ih =>
    have hc : c ≠ '\n' := h c (by simp)
    rw [laCandidates, if_neg hc, ih (fun d hd => h d (List.mem_cons_of_mem c hd))]

/-- C4 amended: for ASCII, newline-free passwords, validation succeeds iff
the length is 8–64 and the password contains at least one lowercase letter,
one uppercase letter, one digit, and one symbol — where a symbol is any
non-alphanumeric character, the underscore included. -/
theorem validate_password_strength_spec (p : List Char)
    (hascii : ∀ c ∈ p, c.toNat < 128) (hnl : ∀ c ∈ p, c ≠ '\n') :
    validate_password_strength p = none ↔
      (8 ≤ p.length ∧ p.length ≤ 64 ∧
        (∃ c ∈ p, isLowerAZ c) ∧ (∃ c ∈ p, isUpperAZ c) ∧
        (∃ c ∈ p, isDigit09 c) ∧
        (∃ c ∈ p, (!(isLowerAZ c || isUpperAZ c || isDigit09 c)) = true)) := by
  have hall : p.all (fun c => c ≠ '\n') = true := by
    simp only [List.all_eq_true, decide_eq_true_iff]
    exact hnl
  have hsym : ∀ c ∈ p, isSymW c = (!(isLowerAZ c || isUpperAZ c || isDigit09 c)) := by
    intro c _
    by_cases hu : c = '_'
    · subst hu; decide
    · have hf : (c == '_') = false := by
        simp only [beq_eq_false_iff_ne, ne_eq]; exact hu
      simp [isSymW, isWordChar, hf]
  constructor
  · intro h
    have hm : PASSWORD_REGEX_match p = true := by
      by_contra hm
      simp [validate_password_strength, hm] at h
    simp only [PASSWORD_REGEX_match, Bool.and_eq_true, hasLA,
      laCandidates_of_no_newline p hnl, dotTail, hall, if_pos, lenOK,
      List.any_eq_true, decide_eq_true_iff] at hm
    obtain ⟨⟨⟨⟨hlo, hup⟩, hdig⟩, hsy⟩, hlen⟩ := hm
    refine ⟨hlen.1, hlen.2, hlo, hup, hdig, ?_⟩
    obtain ⟨c, hc, hcs⟩ := hsy
    exact ⟨c, hc, by rw [← hsym c hc]; exact hcs⟩
  · intro ⟨h1, h2, hlo, hup, hdig, hsy⟩
    have hm : PASSWORD_REGEX_match p = true := by
      simp only [PASSWORD_REGEX_match, Bool.and_eq_true, hasLA,
        laCandidates_of_no_newline p hnl, dotTail, hall, if_pos, lenOK,
        List.any_eq_true, decide_eq_true_iff]
      obtain ⟨c, hc, hcs⟩ := hsy
      exact ⟨⟨⟨⟨hlo, hup⟩, hdig⟩, ⟨c, hc, by rw [hsym c hc]; exact hcs⟩⟩, h1, h2⟩
    simp [validate_password_strength, hm]

/-- Witness for the amended C4: "Str0ng!Pass" is accepted. -/
theorem validate_password_strength_spec_witness :
    validate_password_strength "Str0ng!Pass".toList = none :=
  (validate_password_strength_spec "Str0ng!Pass".toList (by decide)
    (by decide)).mpr (by decide)

/-! ## OTP resend cooldown (AuthService.resend_otp, src/auth/service.py)

The cooldown slice of `resend_otp`: the database query result (the latest
unused code for the user, if any) is passed in explicitly. The returned
Boolean records whether a fresh OTP was issued. -/

def resend_otp (latest_code : Option EmailVerificationCode) (now : ℚ) :
    Option AuthError × Bool :=
  match latest_code with
  | some c =>
    if ¬ c.can_resend now then
      (some (.OTPResendTooSoon
        (max 0 (pyInt (EmailVerificationCode.RESEND_COOLDOWN_SECONDS -
          (now - c.last_sent_at))))), false)
    else (none, true)
  | none => (none, true)

/-- C8: a resend succeeds iff at least 60 seconds have elapsed since
`last_sent_at` (at exactly 60 it succeeds); otherwise it raises
`OTPResendTooSoon` carrying `remaining = ⌊60 − elapsed⌋`, which is
nonnegative (so the `max 0` clamp in the source never lowers it). -/
theorem resend_cooldown_boundary (c : EmailVerificationCode) (now : ℚ) :
    (60 ≤ now - c.last_sent_at → resend_otp (some c) now = (none, true)) ∧
    (now - c.last_sent_at < 60 →
      resend_otp (some c) now =
        (some (.OTPResendTooSoon ⌊60 - (now - c.last_sent_at)⌋), false) ∧
      0 ≤ ⌊(60 : ℚ) - (now - c.last_sent_at)⌋) := by
  constructor
  · intro h
    simp [resend_otp, EmailVerificationCode.can_resend,
      EmailVerificationCode.RESEND_COOLDOWN_SECONDS, h]
  · intro h
    have hpos : (0 : ℚ) ≤ 60 - (now - c.last_sent_at) := by linarith
    have hfloor : 0 ≤ ⌊(60 : ℚ) - (now - c.last_sent_at)⌋ := Int.floor_nonneg.mpr hpos
    refine ⟨?_, hfloor⟩
    have hd : c.can_resend now = false := by
      simp only [EmailVerificationCode.can_resend,
        EmailVerificationCode.RESEND_COOLDOWN_SECONDS, decide_eq_false_iff_not]
      linarith
    have hval : max 0 (pyInt (EmailVerificationCode.RESEND_COOLDOWN_SECONDS -
        (now - c.last_sent_at))) = ⌊(60 : ℚ) - (now - c.last_sent_at)⌋ := by
      rw [EmailVerificationCode.RESEND_COOLDOWN_SECONDS, pyInt, if_pos hpos,
        max_eq_right hfloor]
    simp [resend_otp, hd, hval]

/-- Witness for C8: 30 seconds after sending, resend is refused with
30 seconds remaining. -/
theorem resend_cooldown_boundary_witness :
    resend_otp (some ⟨1, "1234", 600, false, 0, 0⟩) 30 =
      (some (.OTPResendTooSoon 30), false) := by
  have h := (resend_cooldown_boundary ⟨1, "1234", 600, false, 0, 0⟩ 30).2
    (by norm_num)
  rw [h.1]
  norm_num

/-! ## Users (src/users/models.py, src/users/service.py)

`check_password` delegates to the bcrypt collaborator; it is passed in as
an explicit `verify : plain → hash → Bool` parameter. -/

inductive UserRole where
  | USER
  | ADMIN
  | SUPER_ADMIN
  deriving DecidableEq, Repr

structure User where
  id : ℕ
  email : String
  password_hash : String
  role : UserRole
  email_verified_at : Option ℚ
  pending_email : Option String
  is_active : Bool
  deriving DecidableEq, Repr

namespace User

/-- `User.get_by_email`: the row with the given (unique) email. -/
def get_by_email (users : List User) (email : String) : Option User :=
  users.find? (fun u => decide (u.email = email))

/-- `User.get_by_id`. -/
def get_by_id (users : List User) (user_id : ℕ) : Option User :=
  users.find? (fun u => decide (u.id = user_id))

/-- `User.get_active_users`: all rows with `is_active`. -/
def get_active_users (users : List User) : List User :=
  users.filter (fun u => u.is_active)

end User

/-- Set `is_active := false` on the row with the given id
(`user.deactivate()` followed by commit). -/
def setInactive (users : List User) (user_id : ℕ) : List User :=
  users.map (fun u => if u.id = user_id then { u with is_active := false } else u)

namespace UserService

/-- `UserService.deactivate_user` (administrative path): looks the user up
by id and deactivates unconditionally — there is no last-super-admin
check on this path in the source. -/
def deactivate_user (users : List User) (user_id : ℕ) :
    List User × Option AuthError :=
  match User.get_by_id users user_id with
  | none => (users, some .UserNotFound)
  | some u => (setInactive users u.id, none)

/-- The guard of `UserService.deactivate_account`: the list of active
SUPER_ADMIN rows has length 1 and its element is the caller. -/
def sole_active_super_admin (users : List User) (user : User) : Bool :=
  match (User.get_active_users users).filter
      (fun v => decide (v.role = UserRole.SUPER_ADMIN)) with
  | [a] => decide (a.id = user.id)
  | _ => false

/-- `UserService.deactivate_account` (self-deactivation): requires the
current password, refuses the sole remaining active SUPER_ADMIN, otherwise
deactivates. -/
def deactivate_account (verify : String → String → Bool) (users : List User)
    (user : User) (current_password : String) :
    List User × Option AuthError :=
  if ¬ verify current_password user.password_hash then
    (users, some .InvalidCredentials)
  else if user.role = UserRole.SUPER_ADMIN ∧ sole_active_super_admin users user then
    (users, some .LastSuperAdmin)
  else
    (setInactive users user.id, none)

end UserService

/-- A one-row database whose only user is an active SUPER_ADMIN. -/
def soleAdminDb : List User :=
  [⟨1, "root@x.com", "H", UserRole.SUPER_ADMIN, some 0, none, true⟩]

/-- C3 counterexample: administrative `deactivate_user` deactivates the
sole remaining active SUPER_ADMIN without raising `LastSuperAdminProtected`
— the guard exists only on the self-deactivation path. -/
theorem deactivate_user_claim_false :
    ((soleAdminDb.filter (fun u => u.is_active &&
        decide (u.role = UserRole.SUPER_ADMIN))).length = 1) ∧
    (UserService.deactivate_user soleAdminDb 1).2 = none ∧
    ((UserService.deactivate_user soleAdminDb 1).1.filter
      (fun u => u.is_active && decide (u.role = UserRole.SUPER_ADMIN))) = [] := by
  decide

lemma length_one_mem_eq {α : Type} {l : List α} {a : α}
    (h1 : l.length = 1) (ha : a ∈ l) : l = [a] := by
  match l, h1 with
  | [b], _ =>
    have : a = b := by simpa using ha
    rw [this]

/-- C3 amended: on the self-deactivation path (`deactivate_account`), a
caller who is an active SUPER_ADMIN and the only active SUPER_ADMIN is
refused with `LastSuperAdminProtected` and no flag changes, whenever the
password check passes; the administrative `deactivate_user` path performs
no such check (see the counterexample). -/
theorem deactivate_account_protects_last_super_admin
    (verify : String → String → Bool) (users : List User) (u : User)
    (pw : String) (hmem : u ∈ users) (hact : u.is_active = true)
    (hrole : u.role = UserRole.SUPER_ADMIN)
    (hsole : ((User.get_active_users users).filter
      (fun v => decide (v.role = UserRole.SUPER_ADMIN))).length = 1)
    (hpw : verify pw u.password_hash = true) :
    UserService.deactivate_account verify users u pw =
      (users, some .LastSuperAdmin) := by
  have hmem2 : u ∈ (User.get_active_users users).filter
      (fun v => decide (v.role = UserRole.SUPER_ADMIN)) := by
    rw [List.mem_filter]
    refine ⟨?_, by simp [hrole]⟩
    rw [User.get_active_users, List.mem_filter]
    exact ⟨hmem, hact⟩
  have hlist := length_one_mem_eq hsole hmem2
  have hguard : UserService.sole_active_super_admin users u = true := by
    rw [UserService.sole_active_super_admin, hlist]
    simp
  simp [UserService.deactivate_account, hpw, hrole, hguard]

/-- Witness for the amended C3: the sole active SUPER_ADMIN cannot
self-deactivate even with the correct password. -/
theorem deactivate_account_protects_last_super_admin_witness :
    UserService.deactivate_account (fun p h => p == h) soleAdminDb
      ⟨1, "root@x.com", "H", UserRole.SUPER_ADMIN, some 0, none, true⟩ "H" =
      (soleAdminDb, some .LastSuperAdmin) :=
  deactivate_account_protects_last_super_admin (fun p h => p == h) soleAdminDb
    ⟨1, "root@x.com", "H", UserRole.SUPER_ADMIN, some 0, none, true⟩ "H"
    (by decide) (by decide) (by decide) (by decide) (by decide)

/-! ## Access tokens (src/auth/utils.py)

The PyJWT collaborator is modelled abstractly: a well-formed token is its
claim set together with the key it was signed with; anything else is a
malformed token string. `jwt.decode(token, secret, algorithms)` verifies
the signature (key equality in the model), then the `exp` claim (expired
when `exp ≤ now`), raising subclasses of `InvalidTokenError`; the claims
`sub` and `type` are read from the payload, where a missing `sub` is
`None`. -/

structure JwtPayload where
  sub : Option String
  type_claim : String
  exp : ℚ
  iat : ℚ
  deriving DecidableEq, Repr

inductive TokenString where
  | signed (payload : JwtPayload) (key : String)
  | malformed (raw : String)
  deriving DecidableEq, Repr

inductive JwtError where
  | ExpiredSignatureError
  | InvalidTokenError
  deriving DecidableEq, Repr

/-- `create_access_token`: claims {sub, type="access", exp=now+TTL, iat=now}
signed with the server secret. The TTL is the configured
`ACCESS_TOKEN_EXPIRE` (or the caller-supplied `expires_delta`). -/
def create_access_token (secret : String) (subject : String) (now ttl : ℚ) :
    TokenString :=
  .signed ⟨some subject, "access", now + ttl, now⟩ secret

/-- `decode_token` via `jwt.decode`: signature first, then expiry. -/
def decode_token (secret : String) (now : ℚ) :
    TokenString → Except JwtError JwtPayload
  | .malformed _ => .error .InvalidTokenError
  | .signed p k =>
    if k ≠ secret then .error .InvalidTokenError
    else if p.exp ≤ now then .error .ExpiredSignatureError
    else .ok p

/-- `verify_access_token`: returns the subject, or `None` on any decode
error, on a token-type mismatch, or on a missing subject — it never
propagates an exception. -/
def verify_access_token (secret : String) (now : ℚ) (token : TokenString) :
    Option String :=
  match decode_token secret now token with
  | .error _ => none
  | .ok p => if p.type_claim ≠ "access" then none else p.sub

/-- C9: a token issued for subject S verifies back to S before its expiry
under the signing key; verification returns null for a malformed token,
under a wrong key, after expiry, or when the token-kind claim is not
"access" — and, being a total function into `Option`, it never throws. -/
theorem access_token_round_trip (secret subject : String) (now ttl now' : ℚ) :
    (now' < now + ttl →
      verify_access_token secret now' (create_access_token secret subject now ttl) =
        some subject) ∧
    (∀ raw, verify_access_token secret now' (.malformed raw) = none) ∧
    (∀ p k, k ≠ secret → verify_access_token secret now' (.signed p k) = none) ∧
    (∀ p, p.exp ≤ now' → verify_access_token secret now' (.signed p secret) = none) ∧
    (∀ p, p.type_claim ≠ "access" →
      verify_access_token secret now' (.signed p secret) = none) := by
  refine ⟨?_, ?_, ?_, ?_, ?_⟩
  · intro h
    have hexp : ¬ (now + ttl ≤ now') := by linarith
    simp [verify_access_token, create_access_token, decode_token, hexp]
  · intro raw
    simp [verify_access_token, decode_token]
  · intro p k hk
    simp [verify_access_token, decode_token, hk]
  · intro p hp
    simp [verify_access_token, decode_token, hp]
  · intro p hp
    by_cases hexp : p.exp ≤ now'
    · simp [verify_access_token, decode_token, hexp]
    · simp [verify_access_token, decode_token, hexp, hp]

/-- Witness for C9: a token for subject "42" verifies to "42" one second
before expiry, and to null under a different key. -/
theorem access_token_round_trip_witness :
    verify_access_token "k" 3599
        (create_access_token "k" "42" 0 3600) = some "42" ∧
    verify_access_token "other" 3599 (.signed ⟨some "42", "access", 3600, 0⟩ "k") =
      none :=
  ⟨(access_token_round_trip "k" "42" 0 3600 3599).1 (by norm_num),
   (access_token_round_trip "other" "42" 0 3600 3599).2.2.1
     ⟨some "42", "access", 3600, 0⟩ "k" (by decide)⟩

/-! ## Login (AuthService.login, src/auth/service.py) -/

/-- `AuthService.login`: fetch by email; absent user or password mismatch
give the single unified `InvalidCredentials`; then the unverified-email
gate, then the inactive gate; only then is an access token issued. -/
def login (verify : String → String → Bool) (users : List User)
    (email password : String) (secret : String) (now ttl : ℚ) :
    Except AuthError TokenString :=
  match User.get_by_email users email with
  | none => .error .InvalidCredentials
  | some user =>
    if ¬ verify password user.password_hash then .error .InvalidCredentials
    else if user.email_verified_at = none then .error .EmailNotVerified
    else if user.is_active = false then .error .UserInactive
    else .ok (create_access_token secret (toString user.id) now ttl)

/-- C7: login's failure order — unknown email and wrong password both give
the one unified `InvalidCredentials` (in particular a wrong password on an
unverified account, whatever its active flag); only with valid credentials
is the unverified-email gate applied (whatever the active flag), then the
inactive gate, and only when all three pass is an access token issued. -/
theorem login_check_order (verify : String → String → Bool)
    (users : List User) (email password secret : String) (now ttl : ℚ) :
    (User.get_by_email users email = none →
      login verify users email password secret now ttl = .error .InvalidCredentials) ∧
    (∀ u, User.get_by_email users email = some u →
      verify password u.password_hash = false →
      login verify users email password secret now ttl = .error .InvalidCredentials) ∧
    (∀ u, User.get_by_email users email = some u →
      verify password u.password_hash = true → u.email_verified_at = none →
      login verify users email password secret now ttl = .error .EmailNotVerified) ∧
    (∀ u, User.get_by_email users email = some u →
      verify password u.password_hash = true → u.email_verified_at ≠ none →
      u.is_active = false →
      login verify users email password secret now ttl = .error .UserInactive) ∧
    (∀ u, User.get_by_email users email = some u →
      verify password u.password_hash = true → u.email_verified_at ≠ none →
      u.is_active = true →
      login verify users email password secret now ttl =
        .ok (create_access_token secret (toString u.id) now ttl)) := by
  refine ⟨?_, ?_, ?_, ?_, ?_⟩
  · intro h; simp [login, h]
  · intro u hu hpw; simp [login, hu, hpw]
  · intro u hu hpw hverif; simp [login, hu, hpw, hverif]
  · intro u hu hpw hverif hact; simp [login, hu, hpw, hverif, hact]
  · intro u hu hpw hverif hact; simp [login, hu, hpw, hverif, hact]

/-- A two-user database: an unverified inactive-irrelevant user and a
verified one (for the login witness). -/
def loginDb : List User :=
  [⟨1, "a@x.com", "HdA", UserRole.USER, none, none, true⟩]

/-- Witness for C7: a wrong password on the unverified account gives
`InvalidCredentials`, not `EmailNotVerified`. -/
theorem login_check_order_witness :
    login (fun p h => p == h) loginDb "a@x.com" "wrong" "k" 0 3600 =
      .error .InvalidCredentials :=
  (login_check_order (fun p h => p == h) loginDb "a@x.com" "wrong" "k" 0 3600).2.1
    ⟨1, "a@x.com", "HdA", UserRole.USER, none, none, true⟩ (by decide) (by decide)

/-! ## Password reset tokens (src/auth/models/password_reset_token.py,
AuthService.forgot_password / reset_password in src/auth/service.py)

SHA-256 is the external hashing collaborator, passed in as
`h : String → String`; the fresh `secrets.token_urlsafe(32)` value is the
explicit `raw_token` argument. The database is a users list plus a reset
token list, committed atomically per operation. -/

structure PasswordResetToken where
  user_id : ℕ
  token_hash : String
  expires_at : ℚ
  is_used : Bool
  deriving DecidableEq, Repr

def RESET_TOKEN_VALIDITY_MINUTES : ℚ := 15

structure AuthState where
  users : List User
  reset_tokens : List PasswordResetToken
  deriving DecidableEq, Repr

/-- Mark every active (unused) reset token of the given user as used — the
loop over `existing_tokens` in `forgot_password`. -/
def invalidate_tokens_for (user_id : ℕ) (ts : List PasswordResetToken) :
    List PasswordResetToken :=
  ts.map (fun t =>
    if t.user_id = user_id ∧ t.is_used = false then { t with is_used := true } else t)

/-- `AuthService.forgot_password`: silently succeed when the email is
unknown; otherwise invalidate all active tokens of the user and create one
fresh token, in a single commit. The second component is the error raised
to the caller — there is no raising path. -/
def forgot_password (h : String → String) (st : AuthState)
    (email raw_token : String) (now : ℚ) : AuthState × Option AuthError :=
  match User.get_by_email st.users email with
  | none => (st, none)
  | some user =>
    ({ st with reset_tokens :=
        invalidate_tokens_for user.id st.reset_tokens ++
          [⟨user.id, h raw_token, now + RESET_TOKEN_VALIDITY_MINUTES * 60, false⟩] },
     none)

/-- Replace the found token row by its used version (ORM mutation of the
looked-up row followed by commit). -/
def markTokenUsed (ts : List PasswordResetToken) (rt : PasswordResetToken) :
    List PasswordResetToken :=
  ts.map (fun t => if t = rt then { t with is_used := true } else t)

/-- Rehash the given user's password (`user.set_password` after the
strength check, with `hashpw` the bcrypt collaborator). -/
def setUserPassword (users : List User) (user_id : ℕ) (hash : String) :
    List User :=
  users.map (fun u => if u.id = user_id then { u with password_hash := hash } else u)

/-- `AuthService.reset_password`: hash the raw token, look it up among
unused tokens; not found raises `OTPInvalidException`; expired marks the
token used, commits, and raises `OTPExpiredException`; otherwise the reuse
check, the strength check, then the password is set and the token used. -/
def reset_password (h : String → String) (verify : String → String → Bool)
    (hashpw : String → String) (st : AuthState) (token new_password : String)
    (now : ℚ) : AuthState × Option AuthError :=
  match st.reset_tokens.find?
      (fun t => t.token_hash == h token && !t.is_used) with
  | none => (st, some .OTPInvalid)
  | some rt =>
    if rt.expires_at < now then
      ({ st with reset_tokens := markTokenUsed st.reset_tokens rt },
       some .OTPExpired)
    else
      match User.get_by_id st.users rt.user_id with
      | none => (st, some .UserNotFound)
      | some user =>
        if verify new_password user.password_hash then
          (st, some .PasswordReuseNotAllowed)
        else if validate_password_strength new_password.toList ≠ none then
          (st, some .WeakPassword)
        else
          ({ st with
              users := setUserPassword st.users user.id (hashpw new_password),
              reset_tokens := markTokenUsed st.reset_tokens rt },
           none)

/-- C6: `forgot_password` reports the same success outcome whether or not
the email is registered — no error and no distinguishing return value in
either case; the state is untouched exactly when the user is not found,
and exactly when the user is found the old tokens are invalidated and one
fresh token is issued. -/
theorem forgot_password_uniform_success (h : String → String) (st : AuthState)
    (email raw_token : String) (now : ℚ) :
    ((forgot_password h st email raw_token now).2 = none) ∧
    (User.get_by_email st.users email = none →
      (forgot_password h st email raw_token now).1 = st) ∧
    (∀ u, User.get_by_email st.users email = some u →
      (forgot_password h st email raw_token now).1 =
        { st with reset_tokens :=
            invalidate_tokens_for u.id st.reset_tokens ++
              [⟨u.id, h raw_token, now + RESET_TOKEN_VALIDITY_MINUTES * 60,
                false⟩] }) := by
  refine ⟨?_, ?_, ?_⟩
  · rw [forgot_password]
    cases User.get_by_email st.users email <;> simp
  · intro hnone; simp [forgot_password, hnone]
  · intro u hu; simp [forgot_password, hu]

/-- Witness for C6: on a database where the email is unknown, the call
succeeds and changes nothing. -/
theorem forgot_password_uniform_success_witness :
    (forgot_password (fun s => s) ⟨[], []⟩ "ghost@x.com" "tok" 0).2 = none ∧
    (forgot_password (fun s => s) ⟨[], []⟩ "ghost@x.com" "tok" 0).1 = ⟨[], []⟩ :=
  ⟨(forgot_password_uniform_success (fun s => s) ⟨[], []⟩ "ghost@x.com" "tok" 0).1,
   (forgot_password_uniform_success (fun s => s) ⟨[], []⟩ "ghost@x.com" "tok" 0).2.1
     (by decide)⟩

lemma invalidate_tokens_for_inactive (user_id : ℕ)
    (ts : List PasswordResetToken) :
    ∀ t ∈ invalidate_tokens_for user_id ts,
      t.user_id = user_id → t.is_used = true := by
  intro t ht hid
  rw [invalidate_tokens_for, List.mem_map] at ht
  obtain ⟨s, _, hs⟩ := ht
  by_cases hc : s.user_id = user_id ∧ s.is_used = false
  · rw [if_pos hc] at hs; rw [← hs]
  · rw [if_neg hc] at hs
    rw [← hs] at hid ⊢
    rcases Bool.eq_false_or_eq_true s.is_used with htr | hf
    · exact htr
    · exact absurd ⟨hid, hf⟩ hc

/-- C5: after `forgot_password` issues a fresh token for a user, exactly
one usable (unused) reset token exists for that user — the fresh one — and
redeeming any earlier raw token (one whose hash is not the fresh hash and
whose hash only ever labelled this user's tokens) fails with the
invalid-token error `OTPInvalid`, leaving the state unchanged. -/
theorem forgot_password_single_usable_token (h : String → String)
    (st : AuthState) (email raw_token : String) (now : ℚ) (u : User)
    (hu : User.get_by_email st.users email = some u) :
    (((forgot_password h st email raw_token now).1.reset_tokens.filter
        (fun t => decide (t.user_id = u.id) && !t.is_used)) =
      [⟨u.id, h raw_token, now + RESET_TOKEN_VALIDITY_MINUTES * 60, false⟩]) ∧
    (∀ (verify : String → String → Bool) (hashpw : String → String)
        (raw_old new_password : String) (now' : ℚ),
      h raw_old ≠ h raw_token →
      (∀ t ∈ st.reset_tokens, t.token_hash = h raw_old → t.user_id = u.id) →
      reset_password h verify hashpw (forgot_password h st email raw_token now).1
          raw_old new_password now' =
        ((forgot_password h st email raw_token now).1, some .OTPInvalid)) := by
  have hst : (forgot_password h st email raw_token now).1 =
      { st with reset_tokens :=
          invalidate_tokens_for u.id st.reset_tokens ++
            [⟨u.id, h raw_token, now + RESET_TOKEN_VALIDITY_MINUTES * 60, false⟩] } := by
    simp [forgot_password, hu]
  constructor
  · rw [hst]
    simp only [List.filter_append]
    have hleft : (invalidate_tokens_for u.id st.reset_tokens).filter
        (fun t => decide (t.user_id = u.id) && !t.is_used) = [] := by
      rw [List.filter_eq_nil_iff]
      intro t ht
      simp only [Bool.and_eq_true, decide_eq_true_iff, Bool.not_eq_true']
      intro ⟨hid, hused⟩
      exact absurd (invalidate_tokens_for_inactive u.id st.reset_tokens t ht hid)
        (by rw [hused]; decide)
    rw [hleft]
    simp
  · intro verify hashpw raw_old new_password now' hne honly
    have hfind : ((forgot_password h st email raw_token now).1.reset_tokens.find?
        (fun t => t.token_hash == h raw_old && !t.is_used)) = none := by
      rw [List.find?_eq_none]
      intro t ht
      rw [hst] at ht
      simp only [List.mem_append] at ht
      simp only [Bool.and_eq_true, beq_iff_eq, Bool.not_eq_true']
      intro ⟨hhash, hused⟩
      rcases ht with hl | hr
      · -- an invalidated old token: if its hash matches, it was this
        -- user's, hence it is now marked used
        rw [invalidate_tokens_for, List.mem_map] at hl
        obtain ⟨s, hsmem, hs⟩ := hl
        by_cases hc : s.user_id = u.id ∧ s.is_used = false
        · rw [if_pos hc] at hs
          rw [← hs] at hused
          simp at hused
        · rw [if_neg hc] at hs
          rw [← hs] at hhash hused
          have hid := honly s hsmem hhash
          exact hc ⟨hid, hused⟩
      · -- the fresh token: its hash differs
        simp only [List.mem_singleton] at hr
        subst hr
        exact hne (Eq.symm hhash)
    rw [reset_password, hfind]

/-- A concrete database for the C5 witness: one user with one active
reset token for the raw value "old". -/
def resetDb : AuthState :=
  ⟨[⟨1, "a@x.com", "H", UserRole.USER, some 0, none, true⟩],
   [⟨1, "#old", 100, false⟩]⟩

/-- Witness for C5: after a second token is issued (raw "new"), redeeming
the first raw token "old" fails with `OTPInvalid`. -/
theorem forgot_password_single_usable_token_witness :
    reset_password (fun s => "#" ++ s) (fun _ _ => false) (fun s => s)
        (forgot_password (fun s => "#" ++ s) resetDb "a@x.com" "new" 200).1
        "old" "NewStr0ng!" 300 =
      ((forgot_password (fun s => "#" ++ s) resetDb "a@x.com" "new" 200).1,
       some .OTPInvalid) :=
  (forgot_password_single_usable_token (fun s => "#" ++ s) resetDb "a@x.com"
      "new" 200 ⟨1, "a@x.com", "H", UserRole.USER, some 0, none, true⟩
      (by decide)).2
    (fun _ _ => false) (fun s => s) "old" "NewStr0ng!" 300
    (by decide) (by decide)

/-! ## Registration for an existing unverified user (AuthService.register,
src/auth/service.py lines 200–206)

When `register` finds an existing user: an already-verified email is a
conflict; otherwise a fresh OTP is created and committed with no cooldown
consultation. The generated random code is the explicit `otp` argument. -/

/-- The row `_create_and_log_otp` inserts: fresh code, `expires_at = now +
10 minutes`, unused, zero attempts, `last_sent_at` defaulting to now. -/
def fresh_otp_row (u : User) (otp : String) (now : ℚ) : EmailVerificationCode :=
  ⟨u.id, otp, now + EmailVerificationCode.OTP_VALIDITY_MINUTES * 60, false, 0, now⟩

/-- The existing-user branch of `AuthService.register`: conflict if the
email is verified, otherwise unconditionally issue a fresh OTP and report
`otp_sent = True`. -/
def register_existing_user (codes : List EmailVerificationCode) (u : User)
    (otp : String) (now : ℚ) :
    List EmailVerificationCode × Except AuthError Bool :=
  match u.email_verified_at with
  | some _ => (codes, .error .EmailAlreadyVerified)
  | none => (codes ++ [fresh_otp_row u otp now], .ok true)

/-- C10: for an existing unverified user, `register` always issues a fresh
OTP and succeeds — even when an active code was sent less than 60 seconds
ago, a moment at which the dedicated resend path would refuse with a
cooldown error. -/
theorem register_skips_resend_cooldown (codes : List EmailVerificationCode)
    (u : User) (otp : String) (now : ℚ) (c : EmailVerificationCode)
    (hunv : u.email_verified_at = none) (hmem : c ∈ codes)
    (hcu : c.user_id = u.id) (hcun : c.is_used = false)
    (hcool : now - c.last_sent_at < 60) :
    register_existing_user codes u otp now =
      (codes ++ [fresh_otp_row u otp now], .ok true) ∧
    (resend_otp (some c) now).2 = false := by
  constructor
  · simp [register_existing_user, hunv]
  · exact congrArg Prod.snd ((resend_cooldown_boundary c now).2 hcool).1

/-- Witness for C10: 5 seconds after an active code was sent, register
still issues a fresh code and succeeds while the resend path would refuse. -/
theorem register_skips_resend_cooldown_witness :
    register_existing_user [⟨7, "1111", 600, false, 0, 0⟩]
        ⟨7, "b@x.com", "H", UserRole.USER, none, none, true⟩ "2222" 5 =
      ([⟨7, "1111", 600, false, 0, 0⟩,
        fresh_otp_row ⟨7, "b@x.com", "H", UserRole.USER, none, none, true⟩
          "2222" 5], .ok true) ∧
    (resend_otp (some ⟨7, "1111", 600, false, 0, 0⟩) 5).2 = false :=
  register_skips_resend_cooldown [⟨7, "1111", 600, false, 0, 0⟩]
    ⟨7, "b@x.com", "H", UserRole.USER, none, none, true⟩ "2222" 5
    ⟨7, "1111", 600, false, 0, 0⟩ (by decide) (by decide) (by decide)
    (by decide) (by show (5 : ℚ) - 0 < 60; norm_num)
